import Mathlib

/-!
Verification of the project-context lifecycle control flow of
`src/components/chat-components/ChatControls.tsx`
(`reloadCurrentProject` and `forceRebuildCurrentProjectContext`).

The two operations are effectful async functions: they read the current
project selection, toggle a process-wide loading flag, call into an external
project-context cache, look up the owning plugin orchestrator, emit
user-visible notices, and catch/classify errors.  We embed each operation as
a pure function from an environment — describing the current selection and
the success/failure outcome of each external call — to the trace of observable
actions the operation performs, in order.  Errors raised inside the `try`
block are threaded explicitly and consumed by the embedded `catch`/`finally`
clauses, mirroring the source line by line.
-/

/-- A project, as consumed by the two operations: an identifier
(`currentProject.id`) and a display name (`currentProject.name`). -/
structure Project where
  id : String
  name : String
  deriving DecidableEq

/-- A JavaScript error value as far as these operations can observe one:
either an error thrown by one of the external async calls
(`invalidateMarkdownContext`, `clearForProject`, `getProjectContext`),
carrying its rate-limit classification, or the `new Error(...)` the
operations themselves throw when the plugin orchestrator is unavailable. -/
inductive JsError where
  | external (isRateLimit : Bool)
  | managerUnavailable (msg : String)
  deriving DecidableEq

/-- Modelled from the spec: `isRateLimitError` lives in
`src/utils/rateLimitUtils` which is not part of the provided sources; the
spec describes it as "RateLimitClassifier: given an error value, returns
whether it represents a rate-limit condition".  An externally thrown error
carries its own classification; the plain `new Error("... not available")`
thrown by the operations is not a rate-limit condition (the spec lists
`ProjectManagerUnavailable` as "treated as a generic failure"). -/
def isRateLimitError : JsError → Bool
  | .external b => b
  | .managerUnavailable _ => false

/-- Tag identifying each `new Notice(...)` call site of the two operations.
Each constructor corresponds to exactly one call site in the source. -/
inductive NoticeMsg where
  | reloadNoProject
  | reloadSuccess (p : Project)
  | reloadFail
  | rebuildNoProject
  | rebuildProgress (p : Project)
  | cacheCleared (p : Project)
  | rebuildSuccess (p : Project)
  | rebuildFail
  deriving DecidableEq

/-- The literal message text passed to the `Notice` constructor at each
call site (template literals rendered with `++`). -/
def NoticeMsg.text : NoticeMsg → String
  | .reloadNoProject => "No project is currently selected to reload."
  | .reloadSuccess p => "Project context for \"" ++ p.name ++ "\" reloaded successfully."
  | .reloadFail => "Failed to reload project context. Check console for details."
  | .rebuildNoProject => "No project is currently selected to rebuild."
  | .rebuildProgress p =>
      "Force rebuilding context for project: " ++ p.name ++
        "... This will take some time and re-fetch all data."
  | .cacheCleared p => "Cache for project \"" ++ p.name ++ "\" has been cleared."
  | .rebuildSuccess p =>
      "Project context for \"" ++ p.name ++ "\" rebuilt successfully from scratch."
  | .rebuildFail => "Failed to force rebuild project context. Check console for details."

/-- The confirmation message of the force-rebuild modal. -/
def rebuildConfirmText (p : Project) : String :=
  "DANGER: This will permanently delete all cached data (markdown, web URLs, " ++
    "YouTube transcripts, and processed file content) for the project \"" ++ p.name ++
    "\" from both memory and disk. The context will then be rebuilt from scratch, " ++
    "re-fetching all remote data and re-processing all local files. " ++
    "This cannot be undone. Are you absolutely sure?"

/-- The title of the force-rebuild modal. -/
def rebuildModalTitle : String := "Force Rebuild Project Context"

/-- Message of the `new Error` thrown by `reloadCurrentProject` when the
plugin or its project manager is missing. -/
def reloadMgrMsg : String := "Copilot plugin or ProjectManager not available."

/-- Message of the `new Error` thrown by the force-rebuild confirmed body
when the plugin or its project manager is missing. -/
def rebuildMgrMsg : String := "Copilot plugin or ProjectManager not available for rebuild."

/-- One observable action of an operation, in trace order:
`notice m d` is a `new Notice(text, d?)` call, `setLoading b` a
`setProjectLoading(b)` call, `invalidateMarkdown p f` a
`ProjectContextCache.invalidateMarkdownContext(p, f)` call,
`clearForProject p` a `ProjectContextCache.clearForProject(p)` call,
`getProjectContext i` a `projectManager.getProjectContext(i)` call,
`logged e` a `logError(..., e)` call, `resetRateLimitTimer` a
`Docs4LLMParser.resetRateLimitNoticeTimer()` call, and `modalOpen m t`
the construction and opening of a `ConfirmModal` with message `m` and
title `t`. -/
inductive Event where
  | notice (msg : NoticeMsg) (duration : Option Nat)
  | setLoading (b : Bool)
  | invalidateMarkdown (p : Project) (forceReload : Bool)
  | clearForProject (p : Project)
  | getProjectContext (id : String)
  | logged (e : JsError)
  | resetRateLimitTimer
  | modalOpen (msg title : String)
  deriving DecidableEq

/-- The environment of one execution: the current project selection
(`getCurrentProject()`), the outcome of each fallible external call
(`none` = the call succeeds, `some err` = the call throws `err`), and
whether `app.plugins.getPlugin("copilot")` yields a plugin with a truthy
`projectManager`. -/
structure Env where
  currentProject : Option Project
  invalidateResult : Option JsError
  clearResult : Option JsError
  pluginAvailable : Bool
  getContextResult : Option JsError
  deriving DecidableEq

/-- The shared `catch` clause of both operations
(`ChatControls.tsx` lines 63–70 and 112–121): log the error, then emit the
generic failure notice only when the error is not a rate-limit error. -/
def catchClause (failMsg : NoticeMsg) : Option JsError → List Event
  | none => []
  | some err =>
      .logged err :: (if isRateLimitError err then [] else [.notice failMsg none])

/-- The `try` block of `reloadCurrentProject` (lines 45–62): start the
loading indicator, invalidate the markdown context with
`forceReload = true`, look up the plugin, recompute the context and emit
the success notice — or throw.  Returns the actions performed together
with the error escaping the block, if any. -/
def reloadTry (env : Env) (currentProject : Project) : List Event × Option JsError :=
  let pre : List Event :=
    [.setLoading true, .invalidateMarkdown currentProject true]
  match env.invalidateResult with
  | some err => (pre, some err)
  | none =>
      if env.pluginAvailable then
        match env.getContextResult with
        | some err => (pre ++ [.getProjectContext currentProject.id], some err)
        | none =>
            (pre ++ [.getProjectContext currentProject.id,
              .notice (.reloadSuccess currentProject) none], none)
      else
        (pre, some (.managerUnavailable reloadMgrMsg))

/-- `reloadCurrentProject` (lines 37–74): bail out with an informational
notice when no project is selected; otherwise run the `try` block, the
`catch` clause, and the `finally` clause (stop the loading indicator). -/
def reloadCurrentProject (env : Env) : List Event :=
  match env.currentProject with
  | none => [.notice .reloadNoProject none]
  | some currentProject =>
      let t := reloadTry env currentProject
      t.1 ++ catchClause .reloadFail t.2 ++ [.setLoading false]

/-- The error escaping the `try` block of `reloadCurrentProject`, if any
(`none` also when no project is selected, in which case no `try` runs). -/
def reloadOutcome (env : Env) : Option JsError :=
  match env.currentProject with
  | none => none
  | some currentProject => (reloadTry env currentProject).2

/-- The `try` block of the force-rebuild confirmed callback (lines 86–111):
start the loading indicator, emit the long-duration progress notice, reset
the rate-limit notice timer, clear the whole project cache, emit the
cache-cleared notice, look up the plugin, recompute and emit the success
notice — or throw. -/
def rebuildTry (env : Env) (currentProject : Project) : List Event × Option JsError :=
  let pre : List Event :=
    [.setLoading true, .notice (.rebuildProgress currentProject) (some 10000),
      .resetRateLimitTimer, .clearForProject currentProject]
  match env.clearResult with
  | some err => (pre, some err)
  | none =>
      let pre2 := pre ++ [.notice (.cacheCleared currentProject) none]
      if env.pluginAvailable then
        match env.getContextResult with
        | some err => (pre2 ++ [.getProjectContext currentProject.id], some err)
        | none =>
            (pre2 ++ [.getProjectContext currentProject.id,
              .notice (.rebuildSuccess currentProject) none], none)
      else
        (pre2, some (.managerUnavailable rebuildMgrMsg))

/-- The confirmed callback body of `forceRebuildCurrentProjectContext`
(lines 85–125): the `try` block, the `catch` clause, and the `finally`
clause. -/
def forceRebuildConfirmedBody (env : Env) (currentProject : Project) : List Event :=
  let t := rebuildTry env currentProject
  t.1 ++ catchClause .rebuildFail t.2 ++ [.setLoading false]

/-- Modelled from the spec: `ConfirmModal`
(`src/components/modals/ConfirmModal`, not part of the provided sources) is
described as "ConfirmationPrompt: presents a modal with a message and title;
invokes a supplied action only if the user confirms".  `confirmed` records
whether the user ever confirms the opened modal. -/
def confirmModalRun (confirmed : Bool) (action : List Event) : List Event :=
  if confirmed then action else []

/-- `forceRebuildCurrentProjectContext` (lines 76–131): bail out with an
informational notice when no project is selected; otherwise construct and
open the confirmation modal, whose callback — run only on a positive
confirmation — is `forceRebuildConfirmedBody`. -/
def forceRebuildCurrentProjectContext (env : Env) (confirmed : Bool) : List Event :=
  match env.currentProject with
  | none => [.notice .rebuildNoProject none]
  | some currentProject =>
      .modalOpen (rebuildConfirmText currentProject) rebuildModalTitle ::
        confirmModalRun confirmed (forceRebuildConfirmedBody env currentProject)

/-- The error escaping the `try` block of the force-rebuild confirmed body,
if any (`none` when no project is selected or the modal is never
confirmed). -/
def rebuildOutcome (env : Env) (confirmed : Bool) : Option JsError :=
  match env.currentProject with
  | none => none
  | some currentProject =>
      if confirmed then (rebuildTry env currentProject).2 else none

/-- The arguments of the `setProjectLoading` calls of a trace, in order. -/
def setLoadingEvents (evs : List Event) : List Bool :=
  evs.filterMap fun e =>
    match e with
    | .setLoading b => some b
    | _ => none

/-- Whether an event is one of the two generic failure notices. -/
def isGenericFailureNotice (e : Event) : Bool :=
  match e with
  | .notice .reloadFail _ => true
  | .notice .rebuildFail _ => true
  | _ => false

/-- How many generic failure notices a trace emits. -/
def genericFailureCount (evs : List Event) : Nat :=
  (evs.filter isGenericFailureNotice).length

/-- How many notices of any kind a trace emits. -/
def noticeCount (evs : List Event) : Nat :=
  (evs.filter fun e =>
    match e with
    | .notice _ _ => true
    | _ => false).length

/-- The cache calls and recompute calls of a trace, in order. -/
def cacheAndRecomputeCalls (evs : List Event) : List Event :=
  evs.filter fun e =>
    match e with
    | .invalidateMarkdown _ _ => true
    | .clearForProject _ => true
    | .getProjectContext _ => true
    | _ => false

/-- The cache-mutating calls of a trace, in order. -/
def cacheMutationEvents (evs : List Event) : List Event :=
  evs.filter fun e =>
    match e with
    | .invalidateMarkdown _ _ => true
    | .clearForProject _ => true
    | _ => false

/-- A sample project used by the concrete witnesses. -/
def sampleProject : Project := ⟨"proj-1", "Alpha"⟩

/-! ## Helper lemmas about the traces -/

theorem setLoadingEvents_append (l1 l2 : List Event) :
    setLoadingEvents (l1 ++ l2) = setLoadingEvents l1 ++ setLoadingEvents l2 := by
  simp [setLoadingEvents]

theorem genericFailureCount_append (l1 l2 : List Event) :
    genericFailureCount (l1 ++ l2) = genericFailureCount l1 + genericFailureCount l2 := by
  simp [genericFailureCount]

theorem noticeCount_append (l1 l2 : List Event) :
    noticeCount (l1 ++ l2) = noticeCount l1 + noticeCount l2 := by
  simp [noticeCount]

theorem cacheAndRecomputeCalls_append (l1 l2 : List Event) :
    cacheAndRecomputeCalls (l1 ++ l2) =
      cacheAndRecomputeCalls l1 ++ cacheAndRecomputeCalls l2 := by
  simp [cacheAndRecomputeCalls]

theorem cacheMutationEvents_append (l1 l2 : List Event) :
    cacheMutationEvents (l1 ++ l2) = cacheMutationEvents l1 ++ cacheMutationEvents l2 := by
  simp [cacheMutationEvents]

theorem reloadTry_setLoading (env : Env) (p : Project) :
    setLoadingEvents (reloadTry env p).1 = [true] := by
  rcases env with ⟨cp, inv, clr, plug, gc⟩
  cases inv <;> cases plug <;> cases gc <;> rfl

theorem rebuildTry_setLoading (env : Env) (p : Project) :
    setLoadingEvents (rebuildTry env p).1 = [true] := by
  rcases env with ⟨cp, inv, clr, plug, gc⟩
  cases clr <;> cases plug <;> cases gc <;> rfl

theorem catchClause_setLoading (m : NoticeMsg) (r : Option JsError) :
    setLoadingEvents (catchClause m r) = [] := by
  rcases r with _ | e
  · rfl
  · rcases e with b | s
    · cases b <;> rfl
    · rfl

theorem reload_setLoading_of_some (env : Env) (p : Project)
    (h : env.currentProject = some p) :
    setLoadingEvents (reloadCurrentProject env) = [true, false] := by
  simp only [reloadCurrentProject, h]
  rw [setLoadingEvents_append, setLoadingEvents_append,
    reloadTry_setLoading, catchClause_setLoading]
  rfl

theorem rebuild_body_setLoading (env : Env) (p : Project) :
    setLoadingEvents (forceRebuildConfirmedBody env p) = [true, false] := by
  simp only [forceRebuildConfirmedBody]
  rw [setLoadingEvents_append, setLoadingEvents_append,
    rebuildTry_setLoading, catchClause_setLoading]
  rfl

/-- C1: for both `reloadCurrentProject` and `forceRebuildCurrentProjectContext`
(with the confirmed body run on confirmation), the sequence of
`setProjectLoading` calls is either empty (the operation never starts an
in-flight phase) or exactly `[true, false]`: the loading flag, false before
invocation, is set at the start and reset to false on every exit path —
success, suppressed rate-limit failure, and generic failure — so it is true
only strictly between the start and the end of an in-flight operation. -/
theorem loadingFlag_set_and_reset (env : Env) (confirmed : Bool) :
    (setLoadingEvents (reloadCurrentProject env) = [] ∨
      setLoadingEvents (reloadCurrentProject env) = [true, false]) ∧
    (setLoadingEvents (forceRebuildCurrentProjectContext env confirmed) = [] ∨
      setLoadingEvents (forceRebuildCurrentProjectContext env confirmed) = [true, false]) := by
  constructor
  · rcases h : env.currentProject with _ | p
    · left
      simp [reloadCurrentProject, h, setLoadingEvents]
    · right
      exact reload_setLoading_of_some env p h
  · rcases h : env.currentProject with _ | p
    · left
      simp [forceRebuildCurrentProjectContext, h, setLoadingEvents]
    · cases confirmed with
      | false =>
          left
          simp [forceRebuildCurrentProjectContext, h, confirmModalRun, setLoadingEvents]
      | true =>
          right
          simp only [forceRebuildCurrentProjectContext, h, confirmModalRun, if_true]
          have := rebuild_body_setLoading env p
          simp [setLoadingEvents] at this ⊢
          exact this

theorem calls_reloadTry (env : Env) (p : Project) :
    cacheAndRecomputeCalls (reloadTry env p).1 = [.invalidateMarkdown p true] ∨
    cacheAndRecomputeCalls (reloadTry env p).1 =
      [.invalidateMarkdown p true, .getProjectContext p.id] := by
  rcases env with ⟨cp, inv, clr, plug, gc⟩
  cases inv <;> cases plug <;> cases gc <;> first | (left; rfl) | (right; rfl)

theorem calls_rebuildTry (env : Env) (p : Project) :
    cacheAndRecomputeCalls (rebuildTry env p).1 = [.clearForProject p] ∨
    cacheAndRecomputeCalls (rebuildTry env p).1 =
      [.clearForProject p, .getProjectContext p.id] := by
  rcases env with ⟨cp, inv, clr, plug, gc⟩
  cases clr <;> cases plug <;> cases gc <;> first | (left; rfl) | (right; rfl)

theorem calls_catchClause (m : NoticeMsg) (r : Option JsError) :
    cacheAndRecomputeCalls (catchClause m r) = [] := by
  rcases r with _ | e
  · rfl
  · rcases e with b | s
    · cases b <;> rfl
    · rfl

theorem calls_reload_of_some (env : Env) (p : Project)
    (h : env.currentProject = some p) :
    cacheAndRecomputeCalls (reloadCurrentProject env) = [.invalidateMarkdown p true] ∨
    cacheAndRecomputeCalls (reloadCurrentProject env) =
      [.invalidateMarkdown p true, .getProjectContext p.id] := by
  simp only [reloadCurrentProject, h]
  rw [cacheAndRecomputeCalls_append, cacheAndRecomputeCalls_append,
    calls_catchClause]
  rcases calls_reloadTry env p with h1 | h1 <;> rw [h1] <;> [left; right] <;> rfl

theorem calls_rebuild_body (env : Env) (p : Project) :
    cacheAndRecomputeCalls (forceRebuildConfirmedBody env p) = [.clearForProject p] ∨
    cacheAndRecomputeCalls (forceRebuildConfirmedBody env p) =
      [.clearForProject p, .getProjectContext p.id] := by
  simp only [forceRebuildConfirmedBody]
  rw [cacheAndRecomputeCalls_append, cacheAndRecomputeCalls_append,
    calls_catchClause]
  rcases calls_rebuildTry env p with h1 | h1 <;> rw [h1] <;> [left; right] <;> rfl

/-- C2: with a current project selected, `reloadCurrentProject` makes exactly
one `invalidateMarkdownContext(project, true)` call — before the
`getProjectContext` recompute call when that happens — and never calls
`clearForProject`; `forceRebuildCurrentProjectContext` never calls
`invalidateMarkdownContext`, and when confirmed its first cache call is
`clearForProject(project)`, before the recompute call when that happens. -/
theorem cache_call_discipline (env : Env) (p : Project) (confirmed : Bool)
    (h : env.currentProject = some p) :
    (cacheAndRecomputeCalls (reloadCurrentProject env) = [.invalidateMarkdown p true] ∨
      cacheAndRecomputeCalls (reloadCurrentProject env) =
        [.invalidateMarkdown p true, .getProjectContext p.id]) ∧
    (cacheAndRecomputeCalls (forceRebuildCurrentProjectContext env confirmed) = [] ∨
      cacheAndRecomputeCalls (forceRebuildCurrentProjectContext env confirmed) =
        [.clearForProject p] ∨
      cacheAndRecomputeCalls (forceRebuildCurrentProjectContext env confirmed) =
        [.clearForProject p, .getProjectContext p.id]) ∧
    (confirmed = true →
      (cacheAndRecomputeCalls (forceRebuildCurrentProjectContext env confirmed)).head? =
        some (.clearForProject p)) := by
  refine ⟨calls_reload_of_some env p h, ?_, ?_⟩
  · cases confirmed with
    | false =>
        left
        simp [forceRebuildCurrentProjectContext, h, confirmModalRun, cacheAndRecomputeCalls]
    | true =>
        right
        have hb := calls_rebuild_body env p
        simp only [forceRebuildCurrentProjectContext, h, confirmModalRun, if_true]
        have hmod : cacheAndRecomputeCalls
            (Event.modalOpen (rebuildConfirmText p) rebuildModalTitle ::
              forceRebuildConfirmedBody env p) =
            cacheAndRecomputeCalls (forceRebuildConfirmedBody env p) := by
          simp [cacheAndRecomputeCalls]
        rw [hmod]
        exact hb
  · intro hc
    subst hc
    have hb := calls_rebuild_body env p
    simp only [forceRebuildCurrentProjectContext, h, confirmModalRun, if_true]
    have hmod : cacheAndRecomputeCalls
        (Event.modalOpen (rebuildConfirmText p) rebuildModalTitle ::
          forceRebuildConfirmedBody env p) =
        cacheAndRecomputeCalls (forceRebuildConfirmedBody env p) := by
      simp [cacheAndRecomputeCalls]
    rw [hmod]
    rcases hb with h1 | h1 <;> rw [h1] <;> rfl

theorem reloadTry_genericCount (env : Env) (p : Project) :
    genericFailureCount (reloadTry env p).1 = 0 := by
  rcases env with ⟨cp, inv, clr, plug, gc⟩
  cases inv <;> cases plug <;> cases gc <;> rfl

theorem rebuildTry_genericCount (env : Env) (p : Project) :
    genericFailureCount (rebuildTry env p).1 = 0 := by
  rcases env with ⟨cp, inv, clr, plug, gc⟩
  cases clr <;> cases plug <;> cases gc <;> rfl

theorem isGenericFailureNotice_logged (e : JsError) :
    isGenericFailureNotice (.logged e) = false := rfl

theorem catchClause_genericCount (m : NoticeMsg) (err : JsError)
    (hm : isGenericFailureNotice (.notice m none) = true) :
    genericFailureCount (catchClause m (some err)) =
      if isRateLimitError err then 0 else 1 := by
  cases hrl : isRateLimitError err <;>
    simp [catchClause, genericFailureCount, hrl, hm, isGenericFailureNotice_logged]

theorem reload_failure_count (env : Env) (p : Project) (err : JsError)
    (h : env.currentProject = some p) (ho : reloadOutcome env = some err) :
    genericFailureCount (reloadCurrentProject env) =
      (if isRateLimitError err then 0 else 1) ∧
    Event.logged err ∈ reloadCurrentProject env := by
  have h2 : (reloadTry env p).2 = some err := by
    simpa [reloadOutcome, h] using ho
  constructor
  · simp only [reloadCurrentProject, h]
    rw [genericFailureCount_append, genericFailureCount_append, h2,
      reloadTry_genericCount, catchClause_genericCount .reloadFail err rfl]
    simp [genericFailureCount, isGenericFailureNotice]
  · simp only [reloadCurrentProject, h, h2, catchClause]
    simp [List.mem_append]

theorem rebuild_failure_count (env : Env) (p : Project) (err : JsError)
    (h : env.currentProject = some p) (ho : rebuildOutcome env true = some err) :
    genericFailureCount (forceRebuildCurrentProjectContext env true) =
      (if isRateLimitError err then 0 else 1) ∧
    Event.logged err ∈ forceRebuildCurrentProjectContext env true := by
  have h2 : (rebuildTry env p).2 = some err := by
    simpa [rebuildOutcome, h] using ho
  constructor
  · simp only [forceRebuildCurrentProjectContext, h, confirmModalRun, if_true,
      forceRebuildConfirmedBody]
    have hmod : ∀ l : List Event,
        genericFailureCount (Event.modalOpen (rebuildConfirmText p) rebuildModalTitle :: l) =
          genericFailureCount l := by
      intro l
      simp [genericFailureCount, isGenericFailureNotice]
    rw [hmod]
    rw [genericFailureCount_append, genericFailureCount_append, h2,
      rebuildTry_genericCount, catchClause_genericCount .rebuildFail err rfl]
    simp [genericFailureCount, isGenericFailureNotice]
  · simp only [forceRebuildCurrentProjectContext, h, confirmModalRun, if_true,
      forceRebuildConfirmedBody, h2, catchClause]
    simp [List.mem_append]

/-- C3: whenever `reloadCurrentProject` or a confirmed
`forceRebuildCurrentProjectContext` fails with an error that
`isRateLimitError` classifies as a rate-limit error, the trace contains
zero generic failure notices and the error is logged via `logError`. -/
theorem rate_limit_failure_suppressed (env : Env) (confirmed : Bool) (err : JsError) :
    (reloadOutcome env = some err → isRateLimitError err = true →
      genericFailureCount (reloadCurrentProject env) = 0 ∧
      Event.logged err ∈ reloadCurrentProject env) ∧
    (rebuildOutcome env confirmed = some err → isRateLimitError err = true →
      genericFailureCount (forceRebuildCurrentProjectContext env confirmed) = 0 ∧
      Event.logged err ∈ forceRebuildCurrentProjectContext env confirmed) := by
  constructor
  · intro ho hrl
    rcases hcp : env.currentProject with _ | p
    · simp [reloadOutcome, hcp] at ho
    · have hmain := reload_failure_count env p err hcp ho
      rw [hrl] at hmain
      simpa using hmain
  · intro ho hrl
    rcases hcp : env.currentProject with _ | p
    · simp [rebuildOutcome, hcp] at ho
    · cases confirmed with
      | false => simp [rebuildOutcome, hcp] at ho
      | true =>
          have hmain := rebuild_failure_count env p err hcp ho
          rw [hrl] at hmain
          simpa using hmain

/-- C4: whenever `reloadCurrentProject` or a confirmed
`forceRebuildCurrentProjectContext` fails with an error that
`isRateLimitError` classifies as not a rate-limit error, the trace contains
exactly one generic failure notice and the error is logged; in general a
failed operation emits the generic failure notice exactly when the
rate-limit-specialized handling (suppression) does not apply — never both. -/
theorem generic_failure_single_notice (env : Env) (confirmed : Bool) (err : JsError) :
    (reloadOutcome env = some err → isRateLimitError err = false →
      genericFailureCount (reloadCurrentProject env) = 1 ∧
      Event.logged err ∈ reloadCurrentProject env) ∧
    (rebuildOutcome env confirmed = some err → isRateLimitError err = false →
      genericFailureCount (forceRebuildCurrentProjectContext env confirmed) = 1 ∧
      Event.logged err ∈ forceRebuildCurrentProjectContext env confirmed) ∧
    (reloadOutcome env = some err →
      genericFailureCount (reloadCurrentProject env) =
        (if isRateLimitError err then 0 else 1)) ∧
    (rebuildOutcome env confirmed = some err →
      genericFailureCount (forceRebuildCurrentProjectContext env confirmed) =
        (if isRateLimitError err then 0 else 1)) := by
  refine ⟨?_, ?_, ?_, ?_⟩
  · intro ho hrl
    rcases hcp : env.currentProject with _ | p
    · simp [reloadOutcome, hcp] at ho
    · have hmain := reload_failure_count env p err hcp ho
      rw [hrl] at hmain
      simpa using hmain
  · intro ho hrl
    rcases hcp : env.currentProject with _ | p
    · simp [rebuildOutcome, hcp] at ho
    · cases confirmed with
      | false => simp [rebuildOutcome, hcp] at ho
      | true =>
          have hmain := rebuild_failure_count env p err hcp ho
          rw [hrl] at hmain
          simpa using hmain
  · intro ho
    rcases hcp : env.currentProject with _ | p
    · simp [reloadOutcome, hcp] at ho
    · exact (reload_failure_count env p err hcp ho).1
  · intro ho
    rcases hcp : env.currentProject with _ | p
    · simp [rebuildOutcome, hcp] at ho
    · cases confirmed with
      | false => simp [rebuildOutcome, hcp] at ho
      | true => exact (rebuild_failure_count env p err hcp ho).1

/-- C5: the destructive steps of `forceRebuildCurrentProjectContext` —
setting the loading flag, resetting the rate-limit notice timer, clearing
the project cache, recomputing the context — run only after the
confirmation modal's callback is invoked with a positive confirmation:
when the user never confirms, the whole trace is just the construction and
opening of the modal, so no cache mutation occurs and the loading flag is
never set; when confirmed, everything after the modal-open action is
exactly the confirmed callback body. -/
theorem force_rebuild_requires_confirmation (env : Env) (p : Project) (confirmed : Bool)
    (h : env.currentProject = some p) :
    (confirmed = false →
      forceRebuildCurrentProjectContext env confirmed =
        [.modalOpen (rebuildConfirmText p) rebuildModalTitle]) ∧
    (cacheMutationEvents (forceRebuildCurrentProjectContext env confirmed) ≠ [] →
      confirmed = true) ∧
    (setLoadingEvents (forceRebuildCurrentProjectContext env confirmed) ≠ [] →
      confirmed = true) ∧
    (Event.resetRateLimitTimer ∈ forceRebuildCurrentProjectContext env confirmed →
      confirmed = true) ∧
    (confirmed = true →
      forceRebuildCurrentProjectContext env confirmed =
        .modalOpen (rebuildConfirmText p) rebuildModalTitle ::
          forceRebuildConfirmedBody env p) := by
  cases confirmed with
  | false =>
      refine ⟨?_, ?_, ?_, ?_, ?_⟩
      · intro _
        simp [forceRebuildCurrentProjectContext, h, confirmModalRun]
      · intro hne
        exact absurd (by simp [forceRebuildCurrentProjectContext, h, confirmModalRun,
          cacheMutationEvents]) hne
      · intro hne
        exact absurd (by simp [forceRebuildCurrentProjectContext, h, confirmModalRun,
          setLoadingEvents]) hne
      · intro hmem
        simp [forceRebuildCurrentProjectContext, h, confirmModalRun] at hmem
      · intro hc
        exact absurd hc (by simp)
  | true =>
      refine ⟨?_, fun _ => rfl, fun _ => rfl, fun _ => rfl, ?_⟩
      · intro hc
        exact absurd hc (by simp)
      · intro _
        simp [forceRebuildCurrentProjectContext, h, confirmModalRun]

/-- C6: when `reloadCurrentProject` is invoked with no current project
selected, the trace is exactly one informational notice ("No project is
currently selected to reload."): zero cache or recompute calls, exactly one
notification, and the loading flag is never set. -/
theorem reload_no_project (env : Env) (h : env.currentProject = none) :
    reloadCurrentProject env = [.notice .reloadNoProject none] ∧
    cacheAndRecomputeCalls (reloadCurrentProject env) = [] ∧
    noticeCount (reloadCurrentProject env) = 1 ∧
    setLoadingEvents (reloadCurrentProject env) = [] := by
  have ht : reloadCurrentProject env = [.notice .reloadNoProject none] := by
    simp [reloadCurrentProject, h]
  refine ⟨ht, ?_, ?_, ?_⟩ <;> rw [ht] <;> rfl

/-- C7: when `forceRebuildCurrentProjectContext` is invoked with no current
project selected, no confirmation modal is ever constructed or opened; the
trace is exactly one informational notice ("No project is currently
selected to rebuild.") and the function returns. -/
theorem force_rebuild_no_project (env : Env) (confirmed : Bool)
    (h : env.currentProject = none) :
    forceRebuildCurrentProjectContext env confirmed = [.notice .rebuildNoProject none] ∧
    (∀ m t, Event.modalOpen m t ∉ forceRebuildCurrentProjectContext env confirmed) ∧
    noticeCount (forceRebuildCurrentProjectContext env confirmed) = 1 := by
  have ht : forceRebuildCurrentProjectContext env confirmed =
      [.notice .rebuildNoProject none] := by
    simp [forceRebuildCurrentProjectContext, h]
  refine ⟨ht, ?_, ?_⟩
  · intro m t hmem
    rw [ht] at hmem
    simp at hmem
  · rw [ht]
    rfl

/-- C8: when the plugin or its project manager lookup yields nothing during
`reloadCurrentProject` or during a confirmed
`forceRebuildCurrentProjectContext`, the operation raises the corresponding
`new Error` inside the `try` block, catches it at the operation boundary as
a non-rate-limit (generic) failure — emitting exactly one generic failure
notice and logging the error — and still runs the `finally` clause and
returns normally, so nothing propagates to the caller. -/
theorem manager_unavailable_generic_failure (env : Env) (p : Project)
    (h : env.currentProject = some p) :
    (env.invalidateResult = none → env.pluginAvailable = false →
      reloadOutcome env = some (.managerUnavailable reloadMgrMsg) ∧
      Event.logged (.managerUnavailable reloadMgrMsg) ∈ reloadCurrentProject env ∧
      genericFailureCount (reloadCurrentProject env) = 1 ∧
      (reloadCurrentProject env).getLast? = some (.setLoading false)) ∧
    (env.clearResult = none → env.pluginAvailable = false →
      rebuildOutcome env true = some (.managerUnavailable rebuildMgrMsg) ∧
      Event.logged (.managerUnavailable rebuildMgrMsg) ∈
        forceRebuildCurrentProjectContext env true ∧
      genericFailureCount (forceRebuildCurrentProjectContext env true) = 1 ∧
      (forceRebuildCurrentProjectContext env true).getLast? =
        some (.setLoading false)) := by
  rcases env with ⟨cp, inv, clr, plug, gc⟩
  have h1 : cp = some p := h
  subst h1
  constructor
  · intro hi hp
    have h2 : inv = none := hi
    have h3 : plug = false := hp
    subst h2; subst h3
    refine ⟨rfl, ?_, rfl, rfl⟩
    simp [reloadCurrentProject, reloadTry, catchClause, isRateLimitError]
  · intro hc hp
    have h2 : clr = none := hc
    have h3 : plug = false := hp
    subst h2; subst h3
    refine ⟨rfl, ?_, rfl, rfl⟩
    simp [forceRebuildCurrentProjectContext, confirmModalRun,
      forceRebuildConfirmedBody, rebuildTry, catchClause, isRateLimitError]

/-- C9: neither operation is atomic on failure — when the cache call has
succeeded and a later step fails (plugin orchestrator unavailable, or the
recompute call throws), the operation reports a failure outcome, yet the
already-performed cache mutation (`invalidateMarkdownContext` during
reload, `clearForProject` during a confirmed force rebuild) stays in the
trace with no compensating call: the cache-mutating calls of the trace are
exactly that one mutation. -/
theorem failure_not_atomic (env : Env) (p : Project)
    (h : env.currentProject = some p) :
    (env.invalidateResult = none →
      (env.pluginAvailable = false ∨ env.getContextResult ≠ none) →
      (∃ err, reloadOutcome env = some err) ∧
      cacheMutationEvents (reloadCurrentProject env) = [.invalidateMarkdown p true]) ∧
    (env.clearResult = none →
      (env.pluginAvailable = false ∨ env.getContextResult ≠ none) →
      (∃ err, rebuildOutcome env true = some err) ∧
      cacheMutationEvents (forceRebuildCurrentProjectContext env true) =
        [.clearForProject p]) := by
  rcases env with ⟨cp, inv, clr, plug, gc⟩
  have h1 : cp = some p := h
  subst h1
  constructor
  · intro hi hor
    have h2 : inv = none := hi
    subst h2
    cases plug with
    | false =>
        refine ⟨⟨.managerUnavailable reloadMgrMsg, rfl⟩, ?_⟩
        rcases gc with _ | e2 <;> rfl
    | true =>
        rcases hor with h3 | h3
        · exact absurd h3 (by simp)
        · rcases hgc : gc with _ | e2
          · exact absurd hgc h3
          · subst hgc
            refine ⟨⟨e2, rfl⟩, ?_⟩
            rcases e2 with b | s
            · cases b <;> rfl
            · rfl
  · intro hc hor
    have h2 : clr = none := hc
    subst h2
    cases plug with
    | false =>
        refine ⟨⟨.managerUnavailable rebuildMgrMsg, rfl⟩, ?_⟩
        rcases gc with _ | e2 <;> rfl
    | true =>
        rcases hor with h3 | h3
        · exact absurd h3 (by simp)
        · rcases hgc : gc with _ | e2
          · exact absurd hgc h3
          · subst hgc
            refine ⟨⟨e2, rfl⟩, ?_⟩
            rcases e2 with b | s
            · cases b <;> rfl
            · rfl

/-- C10: in a confirmed `forceRebuildCurrentProjectContext` whose
`clearForProject` step succeeds but whose `getProjectContext` recompute
step throws, the two informational notices — the long-duration (10000 ms)
in-progress warning and the cache-cleared notice — have already been
emitted before the error is logged and classified, so such a failed run
emits those two informational notices plus at most one generic failure
notice (its notice total is two plus its generic-failure-notice count). -/
theorem rebuild_failure_after_clear_notices (env : Env) (p : Project) (err : JsError)
    (h : env.currentProject = some p) (hc : env.clearResult = none)
    (hp : env.pluginAvailable = true) (hg : env.getContextResult = some err) :
    ∃ pre post,
      forceRebuildCurrentProjectContext env true = pre ++ .logged err :: post ∧
      Event.notice (.rebuildProgress p) (some 10000) ∈ pre ∧
      Event.notice (.cacheCleared p) none ∈ pre ∧
      noticeCount (forceRebuildCurrentProjectContext env true) =
        2 + genericFailureCount (forceRebuildCurrentProjectContext env true) ∧
      genericFailureCount (forceRebuildCurrentProjectContext env true) ≤ 1 := by
  rcases env with ⟨cp, inv, clr, plug, gc⟩
  have h1 : cp = some p := h
  have h2 : clr = none := hc
  have h3 : plug = true := hp
  have h4 : gc = some err := hg
  subst h1; subst h2; subst h3; subst h4
  refine ⟨[.modalOpen (rebuildConfirmText p) rebuildModalTitle, .setLoading true,
      .notice (.rebuildProgress p) (some 10000), .resetRateLimitTimer,
      .clearForProject p, .notice (.cacheCleared p) none, .getProjectContext p.id],
    (if isRateLimitError err then [] else [.notice .rebuildFail none]) ++
      [.setLoading false], ?_, ?_, ?_, ?_, ?_⟩
  · rfl
  · simp
  · simp
  · rcases err with b | s
    · cases b <;> rfl
    · rfl
  · rcases err with b | s
    · cases b with
      | false => exact Nat.le_refl 1
      | true => exact Nat.zero_le 1
    · exact Nat.le_refl 1

/-! ## Concrete environments for the witnesses -/

/-- A project is selected and every external call succeeds. -/
def envAllOk : Env := ⟨some sampleProject, none, none, true, none⟩

/-- The markdown invalidation call throws a rate-limit error. -/
def envRL : Env := ⟨some sampleProject, some (.external true), none, true, none⟩

/-- The markdown invalidation call throws a non-rate-limit error. -/
def envGen : Env := ⟨some sampleProject, some (.external false), none, true, none⟩

/-- No project is selected. -/
def envNoProj : Env := ⟨none, none, none, true, none⟩

/-- A project is selected but the plugin orchestrator cannot be located. -/
def envNoMgr : Env := ⟨some sampleProject, none, none, false, none⟩

/-- The cache calls succeed but the recompute call throws a non-rate-limit
error. -/
def envCtxFail : Env := ⟨some sampleProject, none, none, true, some (.external false)⟩

/-- Witness for C2 at a concrete successful run. -/
theorem cache_call_discipline_witness :
    cacheAndRecomputeCalls (reloadCurrentProject envAllOk) =
      [.invalidateMarkdown sampleProject true, .getProjectContext sampleProject.id] :=
  (cache_call_discipline envAllOk sampleProject true rfl).1.resolve_left (by decide)

/-- Witness for C3 at a concrete rate-limit failure. -/
theorem rate_limit_failure_suppressed_witness :
    genericFailureCount (reloadCurrentProject envRL) = 0 ∧
    Event.logged (.external true) ∈ reloadCurrentProject envRL :=
  (rate_limit_failure_suppressed envRL false (.external true)).1 rfl rfl

/-- Witness for C4 at a concrete non-rate-limit failure. -/
theorem generic_failure_single_notice_witness :
    genericFailureCount (reloadCurrentProject envGen) = 1 ∧
    Event.logged (.external false) ∈ reloadCurrentProject envGen :=
  (generic_failure_single_notice envGen false (.external false)).1 rfl rfl

/-- Witness for C5 at a concrete never-confirmed run. -/
theorem force_rebuild_requires_confirmation_witness :
    forceRebuildCurrentProjectContext envAllOk false =
      [.modalOpen (rebuildConfirmText sampleProject) rebuildModalTitle] :=
  (force_rebuild_requires_confirmation envAllOk sampleProject false rfl).1 rfl

/-- Witness for C6 at a concrete no-project environment. -/
theorem reload_no_project_witness :
    reloadCurrentProject envNoProj = [.notice .reloadNoProject none] ∧
    cacheAndRecomputeCalls (reloadCurrentProject envNoProj) = [] ∧
    noticeCount (reloadCurrentProject envNoProj) = 1 ∧
    setLoadingEvents (reloadCurrentProject envNoProj) = [] :=
  reload_no_project envNoProj rfl

/-- Witness for C7 at a concrete no-project environment. -/
theorem force_rebuild_no_project_witness :
    forceRebuildCurrentProjectContext envNoProj true =
      [.notice .rebuildNoProject none] :=
  (force_rebuild_no_project envNoProj true rfl).1

/-- Witness for C8 at a concrete orchestrator-unavailable environment. -/
theorem manager_unavailable_generic_failure_witness :
    reloadOutcome envNoMgr = some (.managerUnavailable reloadMgrMsg) ∧
    Event.logged (.managerUnavailable reloadMgrMsg) ∈ reloadCurrentProject envNoMgr ∧
    genericFailureCount (reloadCurrentProject envNoMgr) = 1 ∧
    (reloadCurrentProject envNoMgr).getLast? = some (.setLoading false) :=
  (manager_unavailable_generic_failure envNoMgr sampleProject rfl).1 rfl rfl

/-- Witness for C9 at a concrete failure after a successful cache call. -/
theorem failure_not_atomic_witness :
    (∃ err, reloadOutcome envNoMgr = some err) ∧
    cacheMutationEvents (reloadCurrentProject envNoMgr) =
      [.invalidateMarkdown sampleProject true] :=
  (failure_not_atomic envNoMgr sampleProject rfl).1 rfl (Or.inl rfl)

/-- Witness for C10 at a concrete recompute failure after a successful
cache clear. -/
theorem rebuild_failure_after_clear_notices_witness :
    ∃ pre post,
      forceRebuildCurrentProjectContext envCtxFail true =
        pre ++ .logged (.external false) :: post ∧
      Event.notice (.rebuildProgress sampleProject) (some 10000) ∈ pre ∧
      Event.notice (.cacheCleared sampleProject) none ∈ pre ∧
      noticeCount (forceRebuildCurrentProjectContext envCtxFail true) =
        2 + genericFailureCount (forceRebuildCurrentProjectContext envCtxFail true) ∧
      genericFailureCount (forceRebuildCurrentProjectContext envCtxFail true) ≤ 1 :=
  rebuild_failure_after_clear_notices envCtxFail sampleProject (.external false)
    rfl rfl rfl rfl
